import Mathlib

/-!
Verification of the slatify Slack-notification payload builder
(src/slack.ts) against its natural-language specification.

The TypeScript source is shallowly embedded: the ambient GitHub Actions
event context becomes an explicit `Context` record, the awaited result of
the commit-lookup API call becomes an explicit `CommitData` argument, and
`generatePayload` returns `Except String (Payload × Bool)` where the
`Bool` records whether the commit-lookup network call was performed and
`.error` models a thrown JavaScript `TypeError`.
-/

namespace Slatify

/-- The `Accessory` interface of the source: a color and a result label. -/
structure Accessory where
  color : String
  result : String
deriving DecidableEq, Repr

/-- The GitHub Actions event context read by the `Block` class, made
explicit.  `headRef` is the `GITHUB_HEAD_REF` environment variable. -/
structure Context where
  sha : String
  eventName : String
  workflow : String
  ref : String
  actor : String
  owner : String
  repo : String
  issueNumber : Nat
  headRef : String
deriving DecidableEq, Repr

/-- A Slack mrkdwn element: `{type: 'mrkdwn', text: ...}`. -/
structure MrkdwnElement where
  type : String
  text : String
deriving DecidableEq, Repr

/-- The author part of the commit returned by `client.repos.getCommit`. -/
structure CommitAuthor where
  login : String
  html_url : String
deriving DecidableEq, Repr

/-- The commit data returned by `client.repos.getCommit`: the commit
message, the commit page URL, and the optional platform author. -/
structure CommitData where
  message : String
  html_url : String
  author : Option CommitAuthor
deriving DecidableEq, Repr

/-- `Block.success`: the accessory for a successful job. -/
def success : Accessory := { color := "#2cbe4e", result := "Succeeded" }

/-- `Block.failure`: the accessory for a failed job. -/
def failure : Accessory := { color := "#cb2431", result := "Failed" }

/-- `Block.cancelled`: the accessory for a cancelled job. -/
def cancelled : Accessory := { color := "#ffc107", result := "Cancelled" }

/-- Names of the members of a `Block` instance other than the three
accessory getters, together with the properties inherited from
`Object.prototype`: indexing `slackBlockUI[status]` with one of these
strings yields a defined JavaScript value that is not an `Accessory`. -/
def otherMemberNames : List String :=
  ["context", "isPullRequest", "baseFields", "getCommitFields",
   "getCompactModeTextField", "getReleaseModeTextField",
   "constructor", "hasOwnProperty", "isPrototypeOf",
   "propertyIsEnumerable", "toLocaleString", "toString", "valueOf",
   "__defineGetter__", "__defineSetter__", "__lookupGetter__",
   "__lookupSetter__", "__proto__"]

/-- Result of the dynamic property lookup `slackBlockUI[status]`. -/
inductive StatusLookup where
  /-- the lookup hit one of the three accessory getters -/
  | accessory (a : Accessory)
  /-- the lookup hit another member or inherited property: a defined
  value whose `result` and `color` properties are `undefined` -/
  | definedOther
  /-- the lookup found nothing: the value is `undefined` -/
  | jsUndefined
deriving DecidableEq, Repr

/-- JavaScript semantics of `slackBlockUI[status]`. -/
def blockLookup (status : String) : StatusLookup :=
  if status = "success" then .accessory success
  else if status = "failure" then .accessory failure
  else if status = "cancelled" then .accessory cancelled
  else if status ∈ otherMemberNames then .definedOther
  else .jsUndefined

/-- `https://github.com/owner/repo` of `Block.baseFields`. -/
def repoUrl (ctx : Context) : String :=
  "https://github.com/" ++ (ctx.owner ++ ("/" ++ ctx.repo))

/-- `Block.isPullRequest`: the event name is exactly `pull_request`. -/
def isPullRequest (ctx : Context) : Bool :=
  ctx.eventName == "pull_request"

/-- The `eventUrl` value computed inside `Block.baseFields`. -/
def eventUrl (ctx : Context) : String :=
  if isPullRequest ctx then
    "<" ++ (repoUrl ctx ++ ("/pull/" ++ (toString ctx.issueNumber ++
      ("|" ++ (ctx.eventName ++ ">")))))
  else ctx.eventName

/-- The `actionUrl` value computed inside `Block.baseFields`. -/
def actionUrl (ctx : Context) : String :=
  if isPullRequest ctx then
    repoUrl ctx ++ ("/pull/" ++ (toString ctx.issueNumber ++ "/checks"))
  else
    repoUrl ctx ++ ("/commit/" ++ (ctx.sha ++ "/checks"))

/-- `Block.baseFields`: the four context fields, in source order. -/
def baseFields (ctx : Context) : List MrkdwnElement :=
  [⟨"mrkdwn", "*repository*\n" ++ ("<" ++ (repoUrl ctx ++ ("|" ++
      (ctx.owner ++ ("/" ++ (ctx.repo ++ ">"))))))⟩,
   ⟨"mrkdwn", "*ref*\n" ++ ctx.ref⟩,
   ⟨"mrkdwn", "*event name*\n" ++ eventUrl ctx⟩,
   ⟨"mrkdwn", "*workflow*\n" ++ ("<" ++ (actionUrl ctx ++ ("|" ++
      (ctx.workflow ++ ">"))))⟩]

/-- Removes the first occurrence of `pat` from the character list,
scanning left to right; the JavaScript semantics of
`s.replace(regex, "")` for a non-global literal pattern. -/
def removeFirstMatchAux (pat : List Char) : List Char → List Char
  | [] => []
  | c :: rest =>
      if pat.isPrefixOf (c :: rest) then (c :: rest).drop pat.length
      else c :: removeFirstMatchAux pat rest

/-- JavaScript `s.replace(/pat/, "")` for a literal, non-global pattern:
removes the first occurrence of `pat` anywhere in `s`. -/
def removeFirstMatch (s pat : String) : String :=
  ⟨removeFirstMatchAux pat.data s.data⟩

/-- The `ref` argument `Block.getCommitFields` passes to
`client.repos.getCommit`: for pull-request events, `GITHUB_HEAD_REF`
with the first occurrence of `refs/heads/` removed; otherwise the
triggering commit SHA. -/
def commitRefArg (ctx : Context) : String :=
  if isPullRequest ctx then removeFirstMatch ctx.headRef "refs/heads/"
  else ctx.sha

/-- `message.split('\n')[0]`: the first line of the commit message. -/
def firstLine (s : String) : String :=
  (s.splitOn "\n").headD ""

/-- `Block.getCommitFields`, with the awaited API response passed in as
`commit`: the commit field, plus the author field when the commit has a
platform author. -/
def getCommitFields (_ctx : Context) (commit : CommitData) :
    List MrkdwnElement :=
  let commitMsg := firstLine commit.message
  let fields : List MrkdwnElement :=
    [⟨"mrkdwn", "*commit*\n" ++ ("<" ++ (commit.html_url ++ ("|" ++
        (commitMsg ++ ">"))))⟩]
  match commit.author with
  | some a =>
      fields ++ [⟨"mrkdwn", "*author*\n" ++ ("<" ++ (a.html_url ++ ("|" ++
        (a.login ++ ">"))))⟩]
  | none => fields

/-- The `actionUrl` computed inside `Block.getCompactModeTextField`. -/
def compactActionUrl (ctx : Context) : String :=
  repoUrl ctx ++ ("/commit/" ++ (ctx.sha ++ "/checks"))

/-- `Block.getCompactModeTextField`: the single compact-mode text. -/
def getCompactModeTextField (ctx : Context) (result : String) :
    MrkdwnElement :=
  ⟨"mrkdwn",
   "[<" ++ (repoUrl ctx ++ ("|" ++ (ctx.owner ++ ("/" ++ (ctx.repo ++
     (">] " ++ (result ++ (" by " ++ (ctx.actor ++ (" on " ++ (ctx.ref ++
     (", check <" ++ (compactActionUrl ctx ++ ("|" ++
     (ctx.workflow ++ ">")))))))))))))))⟩

/-- `Block.getReleaseModeTextField`: the single release-mode text. -/
def getReleaseModeTextField (created_tag : String) : MrkdwnElement :=
  ⟨"mrkdwn", "https://github.com/weseek/growi/releases/tag/" ++ created_tag⟩

/-- `Slack.isMention`: the mention condition is `always` or equals the
job status. -/
def isMention (condition status : String) : Bool :=
  condition == "always" || condition == status

/-- The body the source attaches to the section block: either a single
`text` element or a `fields` array, never both. -/
inductive SectionBody where
  | textOnly (t : MrkdwnElement)
  | fieldsOnly (fs : List MrkdwnElement)
deriving DecidableEq, Repr

/-- The section block `{type: 'section', ...}`. -/
structure SectionBlock where
  blockType : String
  body : SectionBody
deriving DecidableEq, Repr

/-- A message attachment; `color` is `none` when the JavaScript value
assigned was `undefined`. -/
structure MessageAttachment where
  color : Option String
  blocks : List SectionBlock
deriving DecidableEq, Repr

/-- The final webhook payload. -/
structure Payload where
  text : String
  attachments : List MessageAttachment
  unfurl_links : Bool
deriving DecidableEq, Repr

/-- JavaScript truthiness of the optional `token` argument: `undefined`
and the empty string are falsy. -/
def tokenTruthy : Option String → Bool
  | none => false
  | some t => t != ""

/-- The error thrown by `const {result} = notificationType` when the
status lookup returned `undefined`. -/
def typeErrorMsg : String :=
  "TypeError: Cannot destructure property result of undefined"

/-- The straight-line tail of `Slack.generatePayload` once the status
lookup produced a defined value: `color` and `result` are the properties
read off that value.  Returns the payload together with a flag recording
whether the commit-lookup network call was performed. -/
def buildPayload (ctx : Context) (fetchedCommit : CommitData)
    (jobName status mention mentionCondition : String)
    (commitFlag isCompactMode isReleaseMode : Bool)
    (created_tag : String) (token : Option String)
    (color : Option String) (result : String) : Payload × Bool :=
  let tmpText := jobName ++ (" " ++ result)
  let text :=
    if mention != "" && isMention mentionCondition status then
      "<!" ++ (mention ++ ("> " ++ tmpText))
    else tmpText
  let bodyFetched : SectionBody × Bool :=
    if isCompactMode then
      (.textOnly (getCompactModeTextField ctx result), false)
    else if isReleaseMode then
      (.textOnly (getReleaseModeTextField created_tag), false)
    else if commitFlag && tokenTruthy token then
      (.fieldsOnly (baseFields ctx ++ getCommitFields ctx fetchedCommit),
       true)
    else
      (.fieldsOnly (baseFields ctx), false)
  ({ text := text,
     attachments :=
       [{ color := color,
          blocks := [{ blockType := "section", body := bodyFetched.1 }] }],
     unfurl_links := true },
   bodyFetched.2)

/-- `Slack.generatePayload`.  The awaited commit-lookup response is the
explicit argument `fetchedCommit`; the returned `Bool` records whether
that network call was reached.  `.error` models the `TypeError` thrown
by destructuring `undefined` when the status names no property. -/
def generatePayload (ctx : Context) (fetchedCommit : CommitData)
    (jobName status mention mentionCondition : String)
    (commitFlag isCompactMode isReleaseMode : Bool)
    (created_tag : String) (token : Option String) :
    Except String (Payload × Bool) :=
  match blockLookup status with
  | .jsUndefined => .error typeErrorMsg
  | .accessory a =>
      .ok (buildPayload ctx fetchedCommit jobName status mention
        mentionCondition commitFlag isCompactMode isReleaseMode
        created_tag token (some a.color) a.result)
  | .definedOther =>
      .ok (buildPayload ctx fetchedCommit jobName status mention
        mentionCondition commitFlag isCompactMode isReleaseMode
        created_tag token none "undefined")

/-- `Slack.notify`, given the acknowledgement text of the webhook
response: throws exactly when the text is not `ok`, with the response
text embedded in the message. -/
def notify (responseText : String) : Except String Unit :=
  if responseText != "ok" then
    .error ("\n      Failed to send notification to Slack\n      Response: "
      ++ (responseText ++ "\n      "))
  else
    .ok ()

/-- The summary text of a successful `generatePayload` outcome. -/
def genText (out : Except String (Payload × Bool)) : Option String :=
  match out with
  | .ok (p, _) => some p.text
  | .error _ => none

/-- The section body of a successful `generatePayload` outcome with the
expected single-attachment, single-block shape. -/
def genBody (out : Except String (Payload × Bool)) : Option SectionBody :=
  match out with
  | .ok (p, _) =>
      match p.attachments with
      | [att] =>
          match att.blocks with
          | [b] => some b.body
          | _ => none
      | _ => none
  | .error _ => none

/-- The attachment color of a successful `generatePayload` outcome. -/
def genAttachColor (out : Except String (Payload × Bool)) :
    Option (Option String) :=
  match out with
  | .ok (p, _) =>
      match p.attachments with
      | [att] => some att.color
      | _ => none
  | .error _ => none

/-- Whether the commit-lookup call was reached, for a successful
outcome. -/
def genFetched (out : Except String (Payload × Bool)) : Option Bool :=
  match out with
  | .ok (_, fetched) => some fetched
  | .error _ => none

/-- A sample push-event context used to instantiate theorems with
hypotheses. -/
def sampleCtx : Context :=
  { sha := "abc123", eventName := "push", workflow := "CI",
    ref := "refs/heads/main", actor := "octocat", owner := "weseek",
    repo := "slatify", issueNumber := 0, headRef := "" }

/-- A sample pull-request context. -/
def samplePrCtx : Context :=
  { sampleCtx with
    eventName := "pull_request", issueNumber := 7,
    headRef := "refs/heads/feature" }

/-- A sample commit with a platform author. -/
def sampleCommit : CommitData :=
  { message := "fix bug\nmore detail",
    html_url := "https://github.com/weseek/slatify/commit/abc123",
    author := some (CommitAuthor.mk "octocat" "https://github.com/octocat") }

/-- The sample commit with no platform author. -/
def sampleCommitNoAuthor : CommitData :=
  { sampleCommit with author := none }

end Slatify

namespace Slatify

/-- The truthiness test guarding the mention prefix, restated as the
proposition used by the specification. -/
theorem mentionCond_eq (mention mentionCondition status : String) :
    (mention != "" && isMention mentionCondition status) = true ↔
      (mention ≠ "" ∧ (mentionCondition = "always" ∨ mentionCondition = status)) := by
  simp [isMention]

/-- C1: the mention marker is prepended to the summary text if and only
if `mention` is non-empty and the mention condition is `always` or
equals the status; when prepended the text is
`<!mention> jobName resultLabel`. -/
theorem c1_mention_prepended
    (ctx : Context) (commit : CommitData)
    (jobName status mention mentionCondition : String)
    (cf icm irm : Bool) (tag : String) (token : Option String)
    (a : Accessory) (h : blockLookup status = .accessory a) :
    genText (generatePayload ctx commit jobName status mention
        mentionCondition cf icm irm tag token) =
      some (if mention ≠ "" ∧ (mentionCondition = "always" ∨ mentionCondition = status)
            then "<!" ++ (mention ++ ("> " ++ (jobName ++ (" " ++ a.result))))
            else jobName ++ (" " ++ a.result)) := by
  simp only [generatePayload, h, genText, buildPayload]
  exact congrArg some
    (if_congr (mentionCond_eq mention mentionCondition status) rfl rfl)

/-- End-to-end scenario B instance of C1: status `failure`, mention
`channel`, condition `always` gives a text starting with the mention. -/
theorem c1_mention_witness :
    genText (generatePayload sampleCtx sampleCommit "deploy" "failure"
        "channel" "always" false false false "" none) =
      some "<!channel> deploy Failed" := by
  rw [c1_mention_prepended sampleCtx sampleCommit "deploy" "failure"
    "channel" "always" false false false "" none failure rfl]
  decide

/-- C2: each of the three statuses resolves to its fixed accessory, and
the resolved color is the one carried by the payload attachment. -/
theorem c2_accessory_resolution :
    blockLookup "success" = .accessory { color := "#2cbe4e", result := "Succeeded" }
    ∧ blockLookup "failure" = .accessory { color := "#cb2431", result := "Failed" }
    ∧ blockLookup "cancelled" = .accessory { color := "#ffc107", result := "Cancelled" }
    ∧ ∀ (ctx : Context) (commit : CommitData)
        (jobName status mention mentionCondition : String)
        (cf icm irm : Bool) (tag : String) (token : Option String)
        (a : Accessory), blockLookup status = .accessory a →
        genAttachColor (generatePayload ctx commit jobName status mention
            mentionCondition cf icm irm tag token) = some (some a.color) := by
  refine ⟨rfl, rfl, rfl, ?_⟩
  intro ctx commit jobName status mention mentionCondition cf icm irm tag token a h
  simp [generatePayload, h, genAttachColor, buildPayload]

/-- Scenario A instance of C2: a successful job carries `#2cbe4e`. -/
theorem c2_accessory_witness :
    genAttachColor (generatePayload sampleCtx sampleCommit "job" "success"
        "" "" false false false "" none) = some (some "#2cbe4e") :=
  c2_accessory_resolution.2.2.2 sampleCtx sampleCommit "job" "success"
    "" "" false false false "" none success rfl

/-- C6: delivery succeeds exactly when the acknowledgement text is
`ok`; any other text raises an error embedding that text. -/
theorem c6_notify_ok_iff (responseText : String) :
    (notify responseText = .ok () ↔ responseText = "ok")
    ∧ (responseText ≠ "ok" →
        notify responseText =
          .error ("\n      Failed to send notification to Slack\n      Response: "
            ++ (responseText ++ "\n      "))) := by
  constructor
  · constructor
    · intro h
      by_contra hne
      simp [notify, hne] at h
    · intro h
      simp [notify, h]
  · intro h
    simp [notify, h]

/-- Scenario E instance of C6: a non-`ok` acknowledgement raises the
delivery error containing the acknowledgement, while `ok` succeeds. -/
theorem c6_notify_witness :
    notify "ok" = .ok ()
    ∧ notify "error: invalid_payload" =
        .error ("\n      Failed to send notification to Slack\n      Response: "
          ++ ("error: invalid_payload" ++ "\n      ")) :=
  ⟨(c6_notify_ok_iff "ok").1.mpr rfl,
   (c6_notify_ok_iff "error: invalid_payload").2 (by decide)⟩

end Slatify

namespace Slatify

/-- C4: in Full mode the field sequence is the four context fields
`[repository, ref, event name, workflow]` in that order, with any commit
and author fields appended strictly after them. -/
theorem c4_full_mode_field_order
    (ctx : Context) (commit : CommitData)
    (jobName status mention mentionCondition : String)
    (commitFlag : Bool) (tag : String) (token : Option String)
    (a : Accessory) (h : blockLookup status = .accessory a) :
    genBody (generatePayload ctx commit jobName status mention
        mentionCondition commitFlag false false tag token) =
      some (.fieldsOnly (baseFields ctx ++
        (if commitFlag && tokenTruthy token then getCommitFields ctx commit
         else [])))
    ∧ ∃ t1 t2 t3 t4,
        baseFields ctx =
          [⟨"mrkdwn", "*repository*\n" ++ t1⟩,
           ⟨"mrkdwn", "*ref*\n" ++ t2⟩,
           ⟨"mrkdwn", "*event name*\n" ++ t3⟩,
           ⟨"mrkdwn", "*workflow*\n" ++ t4⟩] := by
  constructor
  · cases hcf : (commitFlag && tokenTruthy token) <;>
      simp [generatePayload, h, genBody, buildPayload, hcf]
  · exact ⟨"<" ++ (repoUrl ctx ++ ("|" ++ (ctx.owner ++ ("/" ++
        (ctx.repo ++ ">"))))), ctx.ref, eventUrl ctx,
      "<" ++ (actionUrl ctx ++ ("|" ++ (ctx.workflow ++ ">"))), rfl⟩

/-- Scenario A instance of C4: full mode with commit enrichment
requested and a non-empty token appends the commit fields after the four
context fields. -/
theorem c4_full_mode_witness :
    genBody (generatePayload sampleCtx sampleCommit "job" "success" "" ""
        true false false "" (some "tok")) =
      some (.fieldsOnly (baseFields sampleCtx ++
        (if true && tokenTruthy (some "tok")
         then getCommitFields sampleCtx sampleCommit else []))) :=
  (c4_full_mode_field_order sampleCtx sampleCommit "job" "success" "" ""
    true "" (some "tok") success rfl).1

/-- C5: commit enrichment fields appear exactly when the commit flag is
set and a non-empty token is supplied; the author field appears exactly
when the fetched commit has a platform author, and its absence leaves
just the commit field, not an error. -/
theorem c5_commit_enrichment
    (ctx : Context) (commit : CommitData)
    (jobName status mention mentionCondition : String)
    (commitFlag : Bool) (tag : String) (token : Option String)
    (a : Accessory) (h : blockLookup status = .accessory a) :
    genBody (generatePayload ctx commit jobName status mention
        mentionCondition commitFlag false false tag token) =
      some (.fieldsOnly (baseFields ctx ++
        (if commitFlag = true ∧ token.getD "" ≠ ""
         then getCommitFields ctx commit else [])))
    ∧ (getCommitFields ctx commit).length =
        (if commit.author.isSome then 2 else 1)
    ∧ (∀ au, commit.author = some au →
        getCommitFields ctx commit =
          [⟨"mrkdwn", "*commit*\n" ++ ("<" ++ (commit.html_url ++ ("|" ++
              (firstLine commit.message ++ ">"))))⟩,
           ⟨"mrkdwn", "*author*\n" ++ ("<" ++ (au.html_url ++ ("|" ++
              (au.login ++ ">"))))⟩])
    ∧ (commit.author = none →
        getCommitFields ctx commit =
          [⟨"mrkdwn", "*commit*\n" ++ ("<" ++ (commit.html_url ++ ("|" ++
              (firstLine commit.message ++ ">"))))⟩]) := by
  refine ⟨?_, ?_, ?_, ?_⟩
  · have hcond : (commitFlag && tokenTruthy token) = true ↔
        (commitFlag = true ∧ token.getD "" ≠ "") := by
      cases token <;> simp [tokenTruthy]
    cases hcf : (commitFlag && tokenTruthy token) with
    | true =>
        have hp := hcond.mp hcf
        simp only [generatePayload, h, genBody, buildPayload, hcf]
        simp [hp]
    | false =>
        have hnot : ¬ (commitFlag = true ∧ token.getD "" ≠ "") := by
          intro hp
          rw [hcond.mpr hp] at hcf
          exact Bool.noConfusion hcf
        simp only [generatePayload, h, genBody, buildPayload, hcf]
        simp [hnot]
  · cases hau : commit.author <;> simp [getCommitFields, hau]
  · intro au hau
    simp [getCommitFields, hau]
  · intro hau
    simp [getCommitFields, hau]

/-- Instance of C5: an empty token skips enrichment even with the flag
set, and an authorless commit yields a single commit field. -/
theorem c5_commit_enrichment_witness :
    genBody (generatePayload sampleCtx sampleCommitNoAuthor "job" "success"
        "" "" true false false "" (some "")) =
      some (.fieldsOnly (baseFields sampleCtx ++
        (if true = true ∧ (Option.getD (some "") "") ≠ ""
         then getCommitFields sampleCtx sampleCommitNoAuthor else [])))
    ∧ (getCommitFields sampleCtx sampleCommitNoAuthor).length =
        (if sampleCommitNoAuthor.author.isSome then 2 else 1) :=
  ⟨(c5_commit_enrichment sampleCtx sampleCommitNoAuthor "job" "success"
      "" "" true "" (some "") success rfl).1,
   (c5_commit_enrichment sampleCtx sampleCommitNoAuthor "job" "success"
      "" "" true "" (some "") success rfl).2.1⟩

/-- C7: in compact mode the body is the single compact text field built
from the event context and the result label, and a cancelled status
carries the color `#ffc107`. -/
theorem c7_compact_mode
    (ctx : Context) (commit : CommitData)
    (jobName status mention mentionCondition : String)
    (cf irm : Bool) (tag : String) (token : Option String)
    (a : Accessory) (h : blockLookup status = .accessory a) :
    genBody (generatePayload ctx commit jobName status mention
        mentionCondition cf true irm tag token) =
      some (.textOnly ⟨"mrkdwn",
        "[<" ++ (repoUrl ctx ++ ("|" ++ (ctx.owner ++ ("/" ++ (ctx.repo ++
          (">] " ++ (a.result ++ (" by " ++ (ctx.actor ++ (" on " ++
          (ctx.ref ++ (", check <" ++ (compactActionUrl ctx ++ ("|" ++
          (ctx.workflow ++ ">")))))))))))))))⟩)
    ∧ (status = "cancelled" →
        genAttachColor (generatePayload ctx commit jobName status mention
          mentionCondition cf true irm tag token) = some (some "#ffc107")) := by
  constructor
  · simp [generatePayload, h, genBody, buildPayload, getCompactModeTextField]
  · intro hs
    subst hs
    have hc : blockLookup "cancelled" = StatusLookup.accessory cancelled := rfl
    rw [hc] at h
    injection h with h4
    simp [generatePayload, hc, genAttachColor, buildPayload, ← h4, cancelled]

/-- Scenario C instance of C7: compact mode with a cancelled status. -/
theorem c7_compact_witness :
    genBody (generatePayload sampleCtx sampleCommit "job" "cancelled" "" ""
        false true false "" none) =
      some (.textOnly ⟨"mrkdwn",
        "[<" ++ (repoUrl sampleCtx ++ ("|" ++ (sampleCtx.owner ++ ("/" ++
          (sampleCtx.repo ++ (">] " ++ (cancelled.result ++ (" by " ++
          (sampleCtx.actor ++ (" on " ++ (sampleCtx.ref ++ (", check <" ++
          (compactActionUrl sampleCtx ++ ("|" ++
          (sampleCtx.workflow ++ ">")))))))))))))))⟩)
    ∧ genAttachColor (generatePayload sampleCtx sampleCommit "job"
        "cancelled" "" "" false true false "" none) = some (some "#ffc107") :=
  ⟨(c7_compact_mode sampleCtx sampleCommit "job" "cancelled" "" "" false
      false "" none cancelled rfl).1,
   (c7_compact_mode sampleCtx sampleCommit "job" "cancelled" "" "" false
      false "" none cancelled rfl).2 rfl⟩

/-- C8: in release mode (and not compact mode) the body is the single
fixed release-tag URL text, independent of the event context. -/
theorem c8_release_mode
    (ctx : Context) (commit : CommitData)
    (jobName status mention mentionCondition : String)
    (cf : Bool) (tag : String) (token : Option String)
    (a : Accessory) (h : blockLookup status = .accessory a) :
    genBody (generatePayload ctx commit jobName status mention
        mentionCondition cf false true tag token) =
      some (.textOnly ⟨"mrkdwn",
        "https://github.com/weseek/growi/releases/tag/" ++ tag⟩) := by
  simp [generatePayload, h, genBody, buildPayload, getReleaseModeTextField]

/-- Scenario D instance of C8: release mode with tag `v1.2.3`. -/
theorem c8_release_witness :
    genBody (generatePayload sampleCtx sampleCommit "job" "success" "" ""
        false false true "v1.2.3" none) =
      some (.textOnly ⟨"mrkdwn",
        "https://github.com/weseek/growi/releases/tag/" ++ "v1.2.3"⟩) :=
  c8_release_mode sampleCtx sampleCommit "job" "success" "" "" false
    "v1.2.3" none success rfl

/-- C10: when both mode flags are set, the compact flag wins: the
release flag is irrelevant and the compact rendering is produced. -/
theorem c10_compact_precedence
    (ctx : Context) (commit : CommitData)
    (jobName status mention mentionCondition : String)
    (cf irm : Bool) (tag : String) (token : Option String) :
    generatePayload ctx commit jobName status mention mentionCondition
        cf true irm tag token =
      generatePayload ctx commit jobName status mention mentionCondition
        cf true false tag token
    ∧ (∀ a, blockLookup status = .accessory a →
        genBody (generatePayload ctx commit jobName status mention
            mentionCondition cf true irm tag token) =
          some (.textOnly (getCompactModeTextField ctx a.result))) := by
  constructor
  · cases hk : blockLookup status <;>
      simp [generatePayload, hk, buildPayload]
  · intro a h
    simp [generatePayload, h, genBody, buildPayload]

/-- Instance of C10: both flags set gives the same payload as compact
mode alone, with the compact text produced. -/
theorem c10_compact_witness :
    generatePayload sampleCtx sampleCommit "job" "success" "" "" false
        true true "v1" none =
      generatePayload sampleCtx sampleCommit "job" "success" "" "" false
        true false "v1" none
    ∧ genBody (generatePayload sampleCtx sampleCommit "job" "success" ""
        "" false true true "v1" none) =
      some (.textOnly (getCompactModeTextField sampleCtx "Succeeded")) :=
  ⟨(c10_compact_precedence sampleCtx sampleCommit "job" "success" "" ""
      false true "v1" none).1,
   (c10_compact_precedence sampleCtx sampleCommit "job" "success" "" ""
      false true "v1" none).2 success rfl⟩

end Slatify

namespace Slatify

/-- Removing a non-empty pattern that sits at the front of the list
keeps exactly the tail after the pattern. -/
theorem removeFirstMatchAux_self (pat xs : List Char) (hne : pat ≠ []) :
    removeFirstMatchAux pat (pat ++ xs) = xs := by
  cases pat with
  | nil => exact absurd rfl hne
  | cons c cs =>
    have hpre : (c :: cs).isPrefixOf (c :: (cs ++ xs)) = true := by
      rw [List.isPrefixOf_iff_prefix]
      exact ⟨xs, rfl⟩
    have hunf : removeFirstMatchAux (c :: cs) (c :: (cs ++ xs)) =
        if (c :: cs).isPrefixOf (c :: (cs ++ xs)) then
          (c :: (cs ++ xs)).drop (c :: cs).length
        else c :: removeFirstMatchAux (c :: cs) (cs ++ xs) := rfl
    show removeFirstMatchAux (c :: cs) (c :: (cs ++ xs)) = xs
    rw [hunf, hpre, if_pos rfl]
    exact List.drop_left _ _

/-- Removing the first occurrence of the full prefix of an appended
string yields the appended remainder. -/
theorem removeFirstMatch_append (p rest : String) (hne : p.data ≠ []) :
    removeFirstMatch (p ++ rest) p = rest := by
  simp only [removeFirstMatch]
  have h1 : (p ++ rest).data = p.data ++ rest.data := rfl
  rw [h1, removeFirstMatchAux_self p.data rest.data hne]

/-- A pattern that occurs nowhere in the list is not removed. -/
theorem removeFirstMatchAux_no_match (pat xs : List Char)
    (h : ¬ pat <:+: xs) : removeFirstMatchAux pat xs = xs := by
  induction xs with
  | nil => rfl
  | cons c rest ih =>
    have hpre : pat.isPrefixOf (c :: rest) = false := by
      rw [Bool.eq_false_iff]
      intro hb
      exact h (List.IsPrefix.isInfix (List.isPrefixOf_iff_prefix.mp hb))
    simp only [removeFirstMatchAux, hpre, Bool.false_eq_true, if_false]
    exact congrArg (c :: ·) (ih (fun hinf => h (List.infix_cons hinf)))

/-- Modelled from the wording of C9: strip a leading `refs/heads/`
prefix from the head ref, leaving any other head ref unchanged. -/
def stripLeadingRefsHeads (s : String) : String :=
  if "refs/heads/".data.isPrefixOf s.data then
    ⟨s.data.drop "refs/heads/".data.length⟩
  else s

/-- A pull-request context whose head ref contains `refs/heads/` in the
middle rather than as a leading prefix. -/
def oddPrCtx : Context :=
  { samplePrCtx with headRef := "a/refs/heads/b" }

/-- C9 counterexample: the code removes the first occurrence of
`refs/heads/` anywhere in the head ref, so a head ref containing the
substring in the middle is passed to the API as `a/b`, not unchanged as
leading-prefix stripping would produce. -/
theorem c9_counterexample :
    isPullRequest oddPrCtx = true
    ∧ oddPrCtx.headRef = "a/refs/heads/b"
    ∧ commitRefArg oddPrCtx = "a/b"
    ∧ stripLeadingRefsHeads oddPrCtx.headRef = "a/refs/heads/b"
    ∧ commitRefArg oddPrCtx ≠ stripLeadingRefsHeads oddPrCtx.headRef := by
  refine ⟨rfl, rfl, ?_, ?_, ?_⟩ <;> decide

/-- C9 amended: for pull-request events the ref passed to the API is
the head ref with the first occurrence of `refs/heads/` removed — in
particular a leading `refs/heads/` prefix is stripped, and a head ref
not containing the substring at all is passed unchanged; for every
other event the triggering commit SHA is used; and the commit field
text is exactly the first line of the fetched message linked to the
commit URL. -/
theorem c9_commit_ref_selection (ctx : Context) (commit : CommitData) :
    (∀ rest : String, ctx.eventName = "pull_request" →
        ctx.headRef = "refs/heads/" ++ rest → commitRefArg ctx = rest)
    ∧ (ctx.eventName = "pull_request" →
        ¬ ("refs/heads/".data <:+: ctx.headRef.data) →
        commitRefArg ctx = ctx.headRef)
    ∧ (ctx.eventName ≠ "pull_request" → commitRefArg ctx = ctx.sha)
    ∧ (getCommitFields ctx commit).head? =
        some ⟨"mrkdwn", "*commit*\n" ++ ("<" ++ (commit.html_url ++ ("|" ++
          (firstLine commit.message ++ ">"))))⟩ := by
  refine ⟨?_, ?_, ?_, ?_⟩
  · intro rest hpr hhead
    have hp : isPullRequest ctx = true := by simp [isPullRequest, hpr]
    simp only [commitRefArg, hp, if_true]
    rw [hhead]
    exact removeFirstMatch_append "refs/heads/" rest (by decide)
  · intro hpr hni
    have hp : isPullRequest ctx = true := by simp [isPullRequest, hpr]
    simp only [commitRefArg, hp, if_true, removeFirstMatch]
    rw [removeFirstMatchAux_no_match _ _ hni]
  · intro hpr
    simp [commitRefArg, isPullRequest, hpr]
  · cases hau : commit.author <;> simp [getCommitFields, hau]

/-- Instance of C9 amended: a standard `refs/heads/feature` head ref is
stripped to `feature` on a pull-request event, and a push event uses
the SHA. -/
theorem c9_selection_witness :
    commitRefArg samplePrCtx = "feature"
    ∧ commitRefArg sampleCtx = sampleCtx.sha :=
  ⟨(c9_commit_ref_selection samplePrCtx sampleCommit).1 "feature" rfl
     (by decide),
   (c9_commit_ref_selection sampleCtx sampleCommit).2.2.1 (by decide)⟩

end Slatify

namespace Slatify

/-- C3 counterexample: the status string `context`, which is outside
the three recognized statuses but names a member of the `Block`
instance, does not make `generatePayload` fail: the dynamic lookup
finds the member, destructuring succeeds with an undefined result, and
with the commit flag set and a token supplied the commit-lookup network
call is reached (`genFetched` is `some true`). -/
theorem c3_counterexample :
    ¬ ("context" = "success" ∨ "context" = "failure"
        ∨ "context" = "cancelled")
    ∧ genFetched (generatePayload sampleCtx sampleCommit "job" "context"
        "" "" true false false "" (some "tok")) = some true := by
  refine ⟨by decide, ?_⟩
  rfl

/-- C3 amended: for every status outside {success, failure, cancelled}
that is also not the name of a `Block` member or inherited object
property, `generatePayload` throws before any network call. -/
theorem c3_fail_fast_amended
    (ctx : Context) (commit : CommitData)
    (jobName status mention mentionCondition : String)
    (cf icm irm : Bool) (tag : String) (token : Option String)
    (h1 : status ∉ (["success", "failure", "cancelled"] : List String))
    (h2 : status ∉ otherMemberNames) :
    generatePayload ctx commit jobName status mention mentionCondition
      cf icm irm tag token = .error typeErrorMsg := by
  simp only [List.mem_cons, List.mem_singleton] at h1
  push_neg at h1
  obtain ⟨e1, e2, e3⟩ := h1
  have hb : blockLookup status = .jsUndefined := by
    simp [blockLookup, e1, e2, e3, h2]
  simp [generatePayload, hb]

/-- Instance of C3 amended: the unknown status `nonsense` throws before
the commit lookup even with the commit flag set and a token given. -/
theorem c3_fail_fast_witness :
    ("nonsense" ∉ (["success", "failure", "cancelled"] : List String))
    ∧ ("nonsense" ∉ otherMemberNames)
    ∧ generatePayload sampleCtx sampleCommit "job" "nonsense" "" "" true
        false false "" (some "tok") = .error typeErrorMsg :=
  ⟨by decide, by decide,
   c3_fail_fast_amended sampleCtx sampleCommit "job" "nonsense" "" ""
     true false false "" (some "tok") (by decide) (by decide)⟩

end Slatify
